import Mathlib

/-!
Shallow embedding of the google-drive-to-photos repository
(src/drive_scanner.py and src/photos_uploader.py), together with theorems
checking the specification's claims about it.

Remote interaction (the Drive and Photos HTTP APIs, the filesystem and the
local clock) is modelled by oracle values supplied as explicit inputs: the
Drive tree is a value of an inductive `Entry` type, HTTP responses are
structures carrying exactly the fields the code reads, timestamps are
opaque strings, and the tracker file on disk is threaded as explicit state.
-/

namespace GDTP

/-! ## drive_scanner.py -/

/-- The constant `PHOTO_MIME_TYPES` (drive_scanner.py lines 13-31). -/
def PHOTO_MIME_TYPES : List String :=
  ["image/jpeg", "image/png", "image/gif", "image/bmp", "image/webp",
   "image/tiff", "image/heic", "image/heif", "image/raw", "image/x-raw",
   "image/x-canon-cr2", "image/x-nikon-nef", "image/x-sony-arw",
   "image/x-panasonic-rw2", "image/x-olympus-orf", "image/x-fuji-raf",
   "image/x-adobe-dng"]

/-- Method `DriveScanner.is_photo` (lines 128-130): membership in the allow-list. -/
def is_photo (mime_type : String) : Bool :=
  PHOTO_MIME_TYPES.contains mime_type

/-- A Drive node as returned by `files().list`: a folder (an item whose
`mimeType` is the reserved folder type `application/vnd.google-apps.folder`,
here baked into the constructor) with its transitive listing, or any other
file with its `mimeType` and optional `md5Checksum`.  The metadata fields
the scanner merely copies into `photo_data` (`size`, `createdTime`,
`modifiedTime`, `imageMediaMetadata`) play no role in any claim and are
elided. -/
inductive Entry where
  | folder (id name : String) (children : List Entry)
  | file (id name mimeType : String) (md5Checksum : Option String)

/-- The record appended to `self.photos_found` for a photo
(drive_scanner.py lines 169-195, metadata fields elided as above). -/
structure PhotoData where
  id : String
  name : String
  path : String
  mimeType : String
  md5Checksum : Option String
deriving Repr, DecidableEq

/-- The mutable scanner state: `self.photos_found` and `self.empty_folders`. -/
structure ScanState where
  photos_found : List PhotoData
  empty_folders : List String
deriving Repr, DecidableEq

/-- Method `DriveScanner.get_folder_name` (lines 49-60): a name lookup by id.  We
model the success path, returning the node's name (the `root` special case
and the fall-back to the raw id on a lookup error do not affect any claim). -/
def get_folder_name : Entry → String
  | .folder _ name _ => name
  | .file _ name _ _ => name

/-- The first loop of `scan_folder` (lines 155-195), over the listing of one
folder in listing order: counts non-folder items as files and folder items
as subfolders, and collects the records appended to `photos_found` for the
items passing `is_photo`.  The Python loop also accumulates the `subfolders`
work list; `scanSubfolders` below re-derives it from the same listing. -/
def countAndCollect (current_path : String) : List Entry → Nat × Nat × List PhotoData
  | [] => (0, 0, [])
  | .folder _ _ _ :: rest =>
      let r := countAndCollect current_path rest
      (r.1, r.2.1 + 1, r.2.2)
  | .file id name mime md5 :: rest =>
      let r := countAndCollect current_path rest
      (r.1 + 1, r.2.1,
        if is_photo mime then
          { id := id, name := name, path := current_path ++ "/" ++ name,
            mimeType := mime, md5Checksum := md5 } :: r.2.2
        else r.2.2)

mutual
/-- Method `DriveScanner.scan_folder` (lines 132-209): lists the folder, counting
direct files and subfolders and collecting photos, then recurses into each
subfolder; returns the state together with `(file_count, subfolder_count)`.
Listing a non-folder id yields no items, hence `(0, 0)`. -/
def scan_folder : Entry → String → ScanState → ScanState × Nat × Nat
  | .file _ _ _ _, _, st => (st, 0, 0)
  | .folder id name children, current_path, st =>
      -- lines 148-150: `if not current_path: current_path = self.get_folder_name(folder_id)`
      let path := if current_path = "" then get_folder_name (.folder id name children) else current_path
      let c := countAndCollect path children
      let st1 : ScanState := { st with photos_found := st.photos_found ++ c.2.2 }
      let st2 := scanSubfolders children path st1
      (st2, c.1, c.2.1)

/-- The second loop of `scan_folder` (lines 197-202): recurse into each
subfolder in listing order and append its path to `empty_folders` exactly
when the recursive call returned `(0, 0)`. -/
def scanSubfolders : List Entry → String → ScanState → ScanState
  | [], _, st => st
  | .file _ _ _ _ :: rest, current_path, st => scanSubfolders rest current_path st
  | .folder id name ch :: rest, current_path, st =>
      let subfolder_path := current_path ++ "/" ++ name
      let r := scan_folder (.folder id name ch) subfolder_path st
      let st2 := if r.2.1 = 0 ∧ r.2.2 = 0 then
          { r.1 with empty_folders := r.1.empty_folders ++ [subfolder_path] }
        else r.1
      scanSubfolders rest current_path st2
end

/-- Method `DriveScanner.scan` (lines 211-231): reset the state and scan from the
given root with an empty `current_path`; returns
`(photos_found, empty_folders)`. -/
def scan (root : Entry) : List PhotoData × List String :=
  let r := scan_folder root "" ⟨[], []⟩
  (r.1.photos_found, r.1.empty_folders)

/-- Method `DriveScanner.scan_paths` (lines 233-266), over already-resolved paths:
`resolve_folder_path` is a remote lookup, so its outcome for each requested
path is supplied as `none` (not found: logged and skipped) or `some root`
(the resolved folder, scanned with the requested path as prefix). -/
def scan_paths (roots : List (String × Option Entry)) : List PhotoData × List String :=
  let st := roots.foldl
    (fun st pr =>
      match pr.2 with
      | none => st
      | some e => (scan_folder e pr.1 st).1)
    ⟨[], []⟩
  (st.photos_found, st.empty_folders)

/-- Whether a listed item is a folder (`mimeType` equals the reserved folder
type). -/
def isFolderEntry : Entry → Bool
  | .folder _ _ _ => true
  | .file _ _ _ _ => false

/-- Spec-side count: the number of direct non-folder children of a node
(photo or not), not looking past the direct children. -/
def directFileCount : Entry → Nat
  | .file _ _ _ _ => 0
  | .folder _ _ children => (children.filter (fun c => !isFolderEntry c)).length

/-- Spec-side count: the number of direct subfolders of a node, not looking
past the direct children. -/
def directFolderCount : Entry → Nat
  | .file _ _ _ _ => 0
  | .folder _ _ children => (children.filter (fun c => isFolderEntry c)).length

mutual
/-- Spec-side (for the amended C1): the empty-folder records appended while
scanning `e` at path `p` — for every proper descendant folder, in traversal
order (children of a folder after that folder's own descendants), its path
exactly when it has zero direct files and zero direct subfolders.  The
scanned root itself is never a candidate. -/
def emptySpec : Entry → String → List String
  | .file _ _ _ _, _ => []
  | .folder _ _ children, p => emptySpecChildren children p

/-- Helper of `emptySpec`: the records contributed by a list of direct
children at parent path `p`. -/
def emptySpecChildren : List Entry → String → List String
  | [], _ => []
  | .file _ _ _ _ :: rest, p => emptySpecChildren rest p
  | .folder id name ch :: rest, p =>
      let q := p ++ "/" ++ name
      emptySpec (.folder id name ch) q ++
        (if directFileCount (.folder id name ch) = 0 ∧
            directFolderCount (.folder id name ch) = 0 then [q] else []) ++
        emptySpecChildren rest p
end

mutual
/-- Claim-side (C1 as frozen): a folder is recursively empty when it has no
direct files and every direct subfolder is recursively empty (so a folder
containing only empty folders is itself empty). -/
def recursivelyEmpty : Entry → Bool
  | .file _ _ _ _ => false
  | .folder _ _ children => recursivelyEmptyList children

/-- All members of the list are recursively empty folders. -/
def recursivelyEmptyList : List Entry → Bool
  | [] => true
  | e :: rest => recursivelyEmpty e && recursivelyEmptyList rest
end

/-- The effective path `scan_folder` works with after the lines 148-150
defaulting. -/
def effPath (e : Entry) (current_path : String) : String :=
  if current_path = "" then get_folder_name e else current_path

/-! ## photos_uploader.py -/

/-- A tracker value: `{file_id, photos_id, path, uploaded_at}`
(photos_uploader.py lines 80-85), keyed by md5 checksum. -/
structure TrackerEntry where
  file_id : String
  photos_id : String
  path : String
  uploaded_at : String
deriving Repr, DecidableEq

/-- The tracker dict `self.uploaded_photos` (md5 checksum → entry):
an insertion-ordered association list with unique keys, as a Python dict. -/
abbrev Tracker := List (String × TrackerEntry)

/-- Dict lookup: the value stored at `key`, if any. -/
def trackerLookup : Tracker → String → Option TrackerEntry
  | [], _ => none
  | (k, e) :: rest, key => if k = key then some e else trackerLookup rest key

/-- Dict update `d[key] = e`: overwrite in place if the key is present,
otherwise append at the end (Python dict insertion-order semantics). -/
def trackerInsert : Tracker → String → TrackerEntry → Tracker
  | [], key, e => [(key, e)]
  | (k, e') :: rest, key, e =>
      if k = key then (key, e) :: rest else (k, e') :: trackerInsert rest key e

/-- The keys of the tracker. -/
def trackerKeys (t : Tracker) : List String := t.map Prod.fst

/-- Method `PhotosUploader.is_duplicate` (lines 52-75): false when duplicate
skipping is off; else true when the checksum is non-empty and a key of the
tracker, or some stored entry's `file_id` equals the given file id. -/
def is_duplicate (skip_duplicates : Bool) (uploaded_photos : Tracker)
    (md5_checksum file_id : String) : Bool :=
  if !skip_duplicates then false
  else if md5_checksum ≠ "" ∧ (trackerLookup uploaded_photos md5_checksum).isSome then true
  else uploaded_photos.any (fun kv => kv.2.file_id == file_id)

/-- An element of the photos list consumed by `upload_all` (the dicts
written by the scanner: `id`, `path`, `mimeType`, optional `md5Checksum`). -/
structure Photo where
  id : String
  path : String
  mimeType : String
  md5Checksum : Option String
deriving Repr, DecidableEq

/-- One per-asset upload result dict (lines 287-294 / 299-327): `photos_id`
is present only on SUCCESS, `error` only on FAILED/ERROR. -/
structure UploadResult where
  path : String
  file_id : String
  timestamp : String
  success : Bool
  status : String
  md5Checksum : String
  photos_id : Option String := none
  error : Option String := none
deriving Repr, DecidableEq

/-- An HTTP response as the code reads it: `status_code` and `text`. -/
structure HttpResponse where
  status_code : Nat
  text : String
deriving Repr, DecidableEq

/-- One element of `newMediaItemResults` in a 200 `batchCreate` response:
`statusMessage` is `status.message`; `mediaItemId` is `mediaItem.get('id', '')`
as read at the call site; `statusRepr` is the Python `str()` rendering of the
`status` dict, used as the error text when the message is not `Success`. -/
structure MediaItemResult where
  statusMessage : Option String
  mediaItemId : String
  statusRepr : String
deriving Repr, DecidableEq

/-- The `batchCreate` response: HTTP status and body, plus the parsed
`newMediaItemResults` list (empty unless the body parses to one). -/
structure BatchCreateResponse where
  status_code : Nat
  text : String
  newMediaItemResults : List MediaItemResult
deriving Repr, DecidableEq

/-- The dict returned by `upload_to_photos`: `{'success': True, 'mediaItem'}`
or `{'success': False, 'error'}`, with the id already projected out as at
the call site. -/
inductive UploadOutcome where
  | ok (mediaItemId : String)
  | fail (error : String)
deriving Repr, DecidableEq

/-- Method `PhotosUploader.upload_to_photos` (lines 171-246).  The two POSTs are
oracles: `uploadResp` answers the raw-bytes upload (its body is the upload
token), `createResp` answers `mediaItems:batchCreate`.  Request-body
construction (description, file name, album id) does not influence the
returned dict and is not modelled. -/
def upload_to_photos (uploadResp : HttpResponse) (createResp : BatchCreateResponse) :
    UploadOutcome :=
  if uploadResp.status_code ≠ 200 then
    .fail ("Upload failed: " ++ toString uploadResp.status_code ++ " - " ++ uploadResp.text)
  else if createResp.status_code ≠ 200 then
    .fail ("Media item creation failed: " ++ toString createResp.status_code ++ " - " ++ createResp.text)
  else
    match createResp.newMediaItemResults with
    | [] => .fail "Unknown error"
    | r :: _ =>
        if r.statusMessage = some "Success" then .ok r.mediaItemId
        else .fail r.statusRepr

deriving instance DecidableEq for Except

/-- The oracle for one asset's processing: the outcome of
`download_from_drive` (`.error msg` models the raised exception, the byte
content itself is opaque), the two Photos API responses, and the value the
clock yields for this asset's timestamps. -/
structure AssetEnv where
  download : Except String Unit
  uploadResp : HttpResponse
  createResp : BatchCreateResponse
  now : String
deriving Repr, DecidableEq

/-- The mutable state threaded through the `upload_all` loop:
`self.upload_results`, `self.uploaded_photos`, the tracker file on disk
(written by `_save_uploaded_tracker`), and `skipped_count`. -/
structure LoopState where
  upload_results : List UploadResult
  uploaded_photos : Tracker
  tracker_file : Tracker
  skipped_count : Nat
deriving Repr, DecidableEq

/-- Method `PhotosUploader.record_upload` (lines 77-86): no-op on an empty
checksum; otherwise store the entry under the checksum and persist the
whole map to the tracker file. -/
def record_upload (st : LoopState) (md5_checksum file_id photos_id path now : String) :
    LoopState :=
  if md5_checksum ≠ "" then
    let t := trackerInsert st.uploaded_photos md5_checksum
      { file_id := file_id, photos_id := photos_id, path := path, uploaded_at := now }
    { st with uploaded_photos := t, tracker_file := t }
  else st

/-- The body of the per-photo loop of `upload_all` (lines 276-335) for one
photo: duplicate check, then download, then the two-step upload, appending
exactly one result.  `_album_id` is only spliced into the request body, so
it does not influence the modelled state. -/
def processOne (skip_duplicates : Bool) (_album_id : Option String)
    (env : AssetEnv) (photo : Photo) (st : LoopState) : LoopState :=
  let file_id := photo.id
  let file_path := photo.path
  let md5_checksum := photo.md5Checksum.getD ""
  if is_duplicate skip_duplicates st.uploaded_photos md5_checksum file_id then
    { st with
      upload_results := st.upload_results ++
        [{ path := file_path, file_id := file_id, timestamp := env.now,
           success := true, status := "SKIPPED_DUPLICATE", md5Checksum := md5_checksum }],
      skipped_count := st.skipped_count + 1 }
  else
    match env.download with
    | .error e =>
        { st with
          upload_results := st.upload_results ++
            [{ path := file_path, file_id := file_id, timestamp := env.now,
               success := false, status := "ERROR", md5Checksum := md5_checksum,
               error := some e }] }
    | .ok _ =>
        match upload_to_photos env.uploadResp env.createResp with
        | .ok photos_id =>
            let st1 := record_upload st md5_checksum file_id photos_id file_path env.now
            { st1 with
              upload_results := st1.upload_results ++
                [{ path := file_path, file_id := file_id, timestamp := env.now,
                   success := true, status := "SUCCESS", md5Checksum := md5_checksum,
                   photos_id := some photos_id }] }
        | .fail err =>
            { st with
              upload_results := st.upload_results ++
                [{ path := file_path, file_id := file_id, timestamp := env.now,
                   success := false, status := "FAILED", md5Checksum := md5_checksum,
                   error := some err }] }

/-- The per-photo loop of `upload_all`, strictly in list order; `i` indexes
into the per-asset oracle. -/
def runLoop (skip_duplicates : Bool) (album_id : Option String)
    (envs : Nat → AssetEnv) (i : Nat) : List Photo → LoopState → LoopState
  | [], st => st
  | photo :: rest, st =>
      runLoop skip_duplicates album_id envs (i + 1) rest
        (processOne skip_duplicates album_id (envs i) photo st)

/-- The single result `processOne` appends for one photo. -/
def resultOf (skip_duplicates : Bool) (env : AssetEnv) (photo : Photo)
    (st : LoopState) : UploadResult :=
  let md5_checksum := photo.md5Checksum.getD ""
  if is_duplicate skip_duplicates st.uploaded_photos md5_checksum photo.id then
    { path := photo.path, file_id := photo.id, timestamp := env.now,
      success := true, status := "SKIPPED_DUPLICATE", md5Checksum := md5_checksum }
  else
    match env.download with
    | .error e =>
        { path := photo.path, file_id := photo.id, timestamp := env.now,
          success := false, status := "ERROR", md5Checksum := md5_checksum,
          error := some e }
    | .ok _ =>
        match upload_to_photos env.uploadResp env.createResp with
        | .ok photos_id =>
            { path := photo.path, file_id := photo.id, timestamp := env.now,
              success := true, status := "SUCCESS", md5Checksum := md5_checksum,
              photos_id := some photos_id }
        | .fail err =>
            { path := photo.path, file_id := photo.id, timestamp := env.now,
              success := false, status := "FAILED", md5Checksum := md5_checksum,
              error := some err }

/-- The sequence of results the loop appends, one per photo in order. -/
def runResults (skip_duplicates : Bool) (album_id : Option String)
    (envs : Nat → AssetEnv) (i : Nat) : List Photo → LoopState → List UploadResult
  | [], _ => []
  | photo :: rest, st =>
      resultOf skip_duplicates (envs i) photo st ::
        runResults skip_duplicates album_id envs (i + 1) rest
          (processOne skip_duplicates album_id (envs i) photo st)

/-- The `POST /albums` response: HTTP status and body, plus the parsed
`response.json().get('id')`. -/
structure AlbumResponse where
  status_code : Nat
  text : String
  id : Option String
deriving Repr, DecidableEq

/-- The album title computed in `__init__` (line 29):
`album_name or f"Drive Import {datetime.now().strftime('%Y-%m-%d %H:%M')}"`.
`now` stands for the formatted local date-time; Python `or` also replaces an
empty caller-supplied string. -/
def album_name (caller : Option String) (now : String) : String :=
  match caller with
  | none => "Drive Import " ++ now
  | some s => if s = "" then "Drive Import " ++ now else s

/-- Method `PhotosUploader.create_album` (lines 88-114): raise on a non-200
response (`.error` carries the exception message), else return the parsed
album id. -/
def create_album (resp : AlbumResponse) : Except String (Option String) :=
  if resp.status_code ≠ 200 then
    .error ("Failed to create album: " ++ toString resp.status_code ++ " - " ++ resp.text)
  else .ok resp.id

/-- The oracle for one whole run: the `POST /albums` response, the per-asset
oracles, and the clock value at construction time (used in the default
album title). -/
structure RunEnv where
  albumResp : AlbumResponse
  assetEnv : Nat → AssetEnv
  now : String

/-- What a completed run yields: the titles of the collections the Photos
service created during the run (one per `POST /albums` returning 200), the
album id, and the final loop state. -/
structure RunResult where
  albums_created : List String
  album_id : Option String
  final : LoopState
deriving Repr, DecidableEq

/-- Method `PhotosUploader.upload_all` (lines 248-345) for an explicit photos list:
create the album (a non-200 response raises, aborting the run before any
per-asset work), then process every photo in order.  `tracker0` is the
loaded `self.uploaded_photos`, `tracker_file0` the tracker file contents on
disk. -/
def upload_all (skip_duplicates : Bool) (album_name_arg : Option String)
    (env : RunEnv) (photos : List Photo) (tracker0 tracker_file0 : Tracker) :
    Except String RunResult :=
  let name := album_name album_name_arg env.now
  match create_album env.albumResp with
  | .error e => .error e
  | .ok album_id =>
      let st0 : LoopState :=
        { upload_results := [], uploaded_photos := tracker0,
          tracker_file := tracker_file0, skipped_count := 0 }
      let stf := runLoop skip_duplicates album_id env.assetEnv 0 photos st0
      .ok { albums_created := [name], album_id := album_id, final := stf }

/-- Binding inclusion between trackers: every stored pair is still stored,
and every key still looks up to the same entry. -/
def TrackerLe (t t' : Tracker) : Prop :=
  (∀ kv, kv ∈ t → kv ∈ t') ∧ ∀ k e, trackerLookup t k = some e → trackerLookup t' k = some e

/-- The sub-tree used to refute C1 as frozen: a folder `C` containing only
the childless folder `D`. -/
def c1Sub : Entry := .folder "c" "C" [.folder "d" "D" []]

/-- The scanned root for the C1 counterexample. -/
def c1Root : Entry := .folder "r" "root" [c1Sub]

/-! Concrete inputs used by counterexamples and witnesses. -/

/-- A fresh loop state (no results, empty tracker map and file). -/
def loopState0 : LoopState := ⟨[], [], [], 0⟩

/-- A photo asset with checksum `"abc"`. -/
def photoA : Photo := ⟨"fa", "root/a.jpg", "image/jpeg", some "abc"⟩

/-- A second, distinct photo asset with the same checksum `"abc"`. -/
def photoB : Photo := ⟨"fb", "root/b.jpg", "image/jpeg", some "abc"⟩

/-- An asset oracle in which every network call succeeds and registration
yields media item id `pid`. -/
def happyEnv (pid : String) (now : String) : AssetEnv :=
  { download := .ok (), uploadResp := ⟨200, "tok"⟩,
    createResp := ⟨200, "", [⟨some "Success", pid, ""⟩]⟩, now := now }

/-- An asset oracle whose `batchCreate` call answers HTTP 500 with body
`"Server exploded"`. -/
def badCreateEnv : AssetEnv :=
  { download := .ok (), uploadResp := ⟨200, "tok"⟩,
    createResp := ⟨500, "Server exploded", []⟩, now := "T0" }

/-- An asset oracle whose download raises `"network down"`. -/
def downErrEnv : AssetEnv :=
  { download := .error "network down", uploadResp := ⟨200, ""⟩,
    createResp := ⟨200, "", []⟩, now := "TE" }

/-- Per-asset oracles for the C3 counterexample: first asset registers as
`"P1"`, every later one as `"P2"`. -/
def c3Envs : Nat → AssetEnv := fun n =>
  if n = 0 then happyEnv "P1" "T1" else happyEnv "P2" "T2"

/-- A run oracle: album creation succeeds with id `"A1"`, every asset uses
the given oracle. -/
def runEnvWith (e : AssetEnv) : RunEnv :=
  { albumResp := ⟨200, "", some "A1"⟩, assetEnv := fun _ => e, now := "NOW" }

/-- A run oracle whose album creation fails with HTTP 403. -/
def badAlbumEnv : RunEnv :=
  { albumResp := ⟨403, "forbidden", none⟩, assetEnv := fun _ => happyEnv "P1" "T1", now := "NOW" }

/-- The statuses of the results of a completed run (empty on a raised run). -/
def runStatuses : Except String RunResult → List String
  | .error _ => []
  | .ok o => o.final.upload_results.map (fun r => r.status)

/-- The final tracker map of a completed run. -/
def runTracker : Except String RunResult → Tracker
  | .error _ => []
  | .ok o => o.final.uploaded_photos

/-- The final tracker file of a completed run. -/
def runTrackerFile : Except String RunResult → Tracker
  | .error _ => []
  | .ok o => o.final.tracker_file

/-- Project the run result out of a completed run. -/
def getOk : Except String RunResult → RunResult
  | .ok o => o
  | .error _ => ⟨[], none, loopState0⟩

/-- The `j`-th result of a completed run (a dummy when absent). -/
def resultAt (x : Except String RunResult) (j : Nat) : UploadResult :=
  ((getOk x).final.upload_results.get? j).getD ⟨"", "", "", false, "", "", none, none⟩

/-- A tracker already holding checksum `"abc"`. -/
def dupTracker : Tracker := [("abc", ⟨"fa", "P0", "root/a.jpg", "T0"⟩)]

/-- A loop state whose tracker already holds checksum `"abc"`. -/
def dupState : LoopState := ⟨[], dupTracker, dupTracker, 0⟩

/-- A tracker holding an entry whose `file_id` is `photoA`'s id but whose
key differs from `photoA`'s checksum. -/
def c10Tracker : Tracker := [("zzz", ⟨"fa", "P0", "old/path.jpg", "T0"⟩)]

/-- A loop state built on `c10Tracker`. -/
def c10State : LoopState := ⟨[], c10Tracker, c10Tracker, 0⟩

/-- First run of the C7 counterexample: the only asset's download raises. -/
def c7Run1 : Except String RunResult :=
  upload_all true none (runEnvWith downErrEnv) [photoA] [] []

/-- Second run of the C7 counterexample: same asset list, tracker state left
by the first run, now with a working network. -/
def c7Run2 : Except String RunResult :=
  upload_all true none (runEnvWith (happyEnv "P1" "T2")) [photoA]
    (runTracker c7Run1) (runTrackerFile c7Run1)

/-- First run of the C7 witness: the only asset uploads successfully. -/
def c7wRun1 : Except String RunResult :=
  upload_all true none (runEnvWith (happyEnv "P1" "T1")) [photoA] [] []

/-- Second run of the C7 witness, from the first run's tracker state. -/
def c7wRun2 : Except String RunResult :=
  upload_all true none (runEnvWith (happyEnv "P9" "T9")) [photoA]
    (runTracker c7wRun1) (runTrackerFile c7wRun1)

/-! ## Theorems -/

theorem slashPath_length (p n : String) : (p ++ "/" ++ n).length = p.length + 1 + n.length := by
  rw [String.length_append, String.length_append,
    show ("/" : String).length = 1 from rfl]

theorem slashPath_ne_empty (p n : String) : p ++ "/" ++ n ≠ "" := by
  intro h
  have h2 : p.length + 1 + n.length = ("" : String).length := by
    rw [← slashPath_length, h]
  simp at h2

theorem countAndCollect_file_count (p : String) (l : List Entry) :
    (countAndCollect p l).1 = (l.filter (fun c => !isFolderEntry c)).length := by
  induction l with
  | nil => rfl
  | cons e rest ih =>
      cases e <;> simp [countAndCollect, isFolderEntry, List.filter_cons, ih]

theorem countAndCollect_folder_count (p : String) (l : List Entry) :
    (countAndCollect p l).2.1 = (l.filter (fun c => isFolderEntry c)).length := by
  induction l with
  | nil => rfl
  | cons e rest ih =>
      cases e <;> simp [countAndCollect, isFolderEntry, List.filter_cons, ih]

theorem scan_folder_counts (e : Entry) (p : String) (st : ScanState) :
    (scan_folder e p st).2.1 = directFileCount e ∧
    (scan_folder e p st).2.2 = directFolderCount e := by
  cases e with
  | file id name mime md5 => simp [scan_folder, directFileCount, directFolderCount]
  | folder id name children =>
      simp [scan_folder, directFileCount, directFolderCount,
        countAndCollect_file_count, countAndCollect_folder_count]

theorem effPath_of_ne (e : Entry) (p : String) (h : p ≠ "") : effPath e p = p := by
  simp [effPath, h]

mutual
theorem scan_folder_empty_eq : ∀ (e : Entry) (p : String) (st : ScanState),
    (scan_folder e p st).1.empty_folders = st.empty_folders ++ emptySpec e (effPath e p)
  | .file _ _ _ _, p, st => by simp [scan_folder, emptySpec]
  | .folder id name children, p, st => by
      rw [show (scan_folder (.folder id name children) p st).1
            = scanSubfolders children (effPath (.folder id name children) p)
                { st with photos_found := st.photos_found ++
                    (countAndCollect (effPath (.folder id name children) p) children).2.2 }
          from by simp [scan_folder, effPath, get_folder_name]]
      rw [scanSubfolders_empty_eq children (effPath (.folder id name children) p) _]
      simp [emptySpec]

theorem scanSubfolders_empty_eq : ∀ (l : List Entry) (p : String) (st : ScanState),
    (scanSubfolders l p st).empty_folders = st.empty_folders ++ emptySpecChildren l p
  | [], p, st => by simp [scanSubfolders, emptySpecChildren]
  | .file id name mime md5 :: rest, p, st => by
      rw [show scanSubfolders (.file id name mime md5 :: rest) p st
            = scanSubfolders rest p st from by simp [scanSubfolders]]
      rw [scanSubfolders_empty_eq rest p st]
      simp [emptySpecChildren]
  | .folder id name ch :: rest, p, st => by
      rw [show scanSubfolders (.folder id name ch :: rest) p st
            = scanSubfolders rest p
                (if (scan_folder (.folder id name ch) (p ++ "/" ++ name) st).2.1 = 0 ∧
                    (scan_folder (.folder id name ch) (p ++ "/" ++ name) st).2.2 = 0 then
                  { (scan_folder (.folder id name ch) (p ++ "/" ++ name) st).1 with
                    empty_folders :=
                      (scan_folder (.folder id name ch) (p ++ "/" ++ name) st).1.empty_folders ++
                        [p ++ "/" ++ name] }
                else (scan_folder (.folder id name ch) (p ++ "/" ++ name) st).1)
          from by simp [scanSubfolders]]
      rw [scanSubfolders_empty_eq rest p _]
      rw [(scan_folder_counts (.folder id name ch) (p ++ "/" ++ name) st).1]
      rw [(scan_folder_counts (.folder id name ch) (p ++ "/" ++ name) st).2]
      have hsub := scan_folder_empty_eq (.folder id name ch) (p ++ "/" ++ name) st
      rw [effPath_of_ne _ _ (slashPath_ne_empty p name)] at hsub
      by_cases hc : directFileCount (.folder id name ch) = 0 ∧
          directFolderCount (.folder id name ch) = 0
      · simp only [if_pos hc]
        simp [hsub, emptySpecChildren, if_pos hc]
      · simp only [if_neg hc]
        simp [hsub, emptySpecChildren, if_neg hc]
end

mutual
theorem emptySpec_length_lt : ∀ (e : Entry) (p : String), ∀ q ∈ emptySpec e p, p.length < q.length
  | .file _ _ _ _, p => by simp [emptySpec]
  | .folder id name children, p => by
      rw [show emptySpec (.folder id name children) p = emptySpecChildren children p
          from by simp [emptySpec]]
      exact emptySpecChildren_length_lt children p

theorem emptySpecChildren_length_lt : ∀ (l : List Entry) (p : String),
    ∀ q ∈ emptySpecChildren l p, p.length < q.length
  | [], p => by simp [emptySpecChildren]
  | .file id name mime md5 :: rest, p => by
      rw [show emptySpecChildren (.file id name mime md5 :: rest) p
            = emptySpecChildren rest p from by simp [emptySpecChildren]]
      exact emptySpecChildren_length_lt rest p
  | .folder id name ch :: rest, p => by
      rw [show emptySpecChildren (.folder id name ch :: rest) p
            = emptySpec (.folder id name ch) (p ++ "/" ++ name) ++
                ((if directFileCount (.folder id name ch) = 0 ∧
                     directFolderCount (.folder id name ch) = 0
                  then [p ++ "/" ++ name] else []) ++ emptySpecChildren rest p)
          from by simp [emptySpecChildren]]
      intro q hq
      rcases List.mem_append.1 hq with h | h
      · have h1 := emptySpec_length_lt (.folder id name ch) (p ++ "/" ++ name) q h
        have h2 := slashPath_length p name
        omega
      · rcases List.mem_append.1 h with h | h
        · have hq2 : q = p ++ "/" ++ name := by
            by_cases hc : directFileCount (.folder id name ch) = 0 ∧
                directFolderCount (.folder id name ch) = 0
            · rw [if_pos hc] at h; simpa using h
            · rw [if_neg hc] at h; simp at h
          rw [hq2, slashPath_length]
          omega
        · exact emptySpecChildren_length_lt rest p q h
end

/-- C1 (amended): for every folder scanned at effective path `p₀`, the
records appended to `empty_folders` are exactly, in traversal order, the
paths of the proper descendant folders with zero direct files AND zero
direct subfolders (so a folder whose only contents are empty folders is NOT
recorded); every appended path is strictly longer than `p₀`, so the scanned
root itself is never recorded even when it qualifies. -/
theorem c1_empty_folder_records (e : Entry) (p : String) (st : ScanState) :
    (scan_folder e p st).1.empty_folders = st.empty_folders ++ emptySpec e (effPath e p) ∧
    ∀ q ∈ emptySpec e (effPath e p), (effPath e p).length < q.length :=
  ⟨scan_folder_empty_eq e p st, emptySpec_length_lt e (effPath e p)⟩

/-- C1 as frozen is false on the code: in the tree `root/C/D` with `D`
childless, folder `C` has zero direct files and its only direct subfolder
`D` is recursively empty, yet `C`'s path is not recorded in the scan's
Empty-Folder Records (while `D`'s is). -/
theorem c1_counterexample :
    recursivelyEmpty c1Sub = true ∧
    directFileCount c1Sub = 0 ∧
    "root/C" ∉ (scan c1Root).2 ∧
    "root/C/D" ∈ (scan c1Root).2 := by decide

/-- Witness for the amended C1 at a concrete input. -/
theorem c1_witness :
    (scan_folder c1Root "root" ⟨[], []⟩).1.empty_folders
      = (⟨[], []⟩ : ScanState).empty_folders ++ emptySpec c1Root (effPath c1Root "root") ∧
    ∀ q ∈ emptySpec c1Root (effPath c1Root "root"),
      (effPath c1Root "root").length < q.length :=
  c1_empty_folder_records c1Root "root" ⟨[], []⟩

/-- C8: the pair returned by `scan_folder` is exactly the node's direct
counts — every direct non-folder child (photo or not) in the file count and
every direct folder child in the subfolder count — independent of the
accumulated state and the path, hence unaffected by whether any descendant
is recursively empty. -/
theorem c8_scan_counts (e : Entry) (p : String) (st : ScanState) :
    (scan_folder e p st).2 = (directFileCount e, directFolderCount e) := by
  have h := scan_folder_counts e p st
  exact Prod.ext h.1 h.2

/-! ### Tracker lemmas -/

theorem trackerLookup_isSome_iff (t : Tracker) (k : String) :
    (trackerLookup t k).isSome = true ↔ ∃ e, (k, e) ∈ t := by
  induction t with
  | nil => simp [trackerLookup]
  | cons kv rest ih =>
      obtain ⟨k', e'⟩ := kv
      by_cases h : k' = k
      · subst h
        simp [trackerLookup]
      · simp only [trackerLookup, if_neg h, ih, List.mem_cons, Prod.mk.injEq]
        constructor
        · rintro ⟨e, he⟩; exact ⟨e, Or.inr he⟩
        · rintro ⟨e, (⟨hk, _⟩ | he)⟩
          · exact absurd hk.symm h
          · exact ⟨e, he⟩

theorem trackerLookup_append_left (t l : Tracker) (k : String) (e : TrackerEntry)
    (h : trackerLookup t k = some e) : trackerLookup (t ++ l) k = some e := by
  induction t with
  | nil => simp [trackerLookup] at h
  | cons kv rest ih =>
      obtain ⟨k', e'⟩ := kv
      by_cases hk : k' = k
      · rw [trackerLookup, if_pos hk] at h
        rw [List.cons_append, trackerLookup, if_pos hk]
        exact h
      · rw [trackerLookup, if_neg hk] at h
        rw [List.cons_append, trackerLookup, if_neg hk]
        exact ih h

theorem trackerInsert_of_none (t : Tracker) (k : String) (e : TrackerEntry)
    (h : trackerLookup t k = none) : trackerInsert t k e = t ++ [(k, e)] := by
  induction t with
  | nil => simp [trackerInsert]
  | cons kv rest ih =>
      obtain ⟨k', e'⟩ := kv
      by_cases hk : k' = k
      · rw [trackerLookup, if_pos hk] at h
        exact absurd h (by simp)
      · rw [trackerLookup, if_neg hk] at h
        simp [trackerInsert, hk, ih h]

theorem trackerInsert_lookup_self (t : Tracker) (k : String) (e : TrackerEntry) :
    trackerLookup (trackerInsert t k e) k = some e := by
  induction t with
  | nil => simp [trackerInsert, trackerLookup]
  | cons kv rest ih =>
      obtain ⟨k', e'⟩ := kv
      by_cases hk : k' = k
      · simp [trackerInsert, hk, trackerLookup]
      · simp [trackerInsert, hk, trackerLookup, ih]

theorem trackerLe_refl (t : Tracker) : TrackerLe t t :=
  ⟨fun _ h => h, fun _ _ h => h⟩

theorem trackerLe_trans {a b c : Tracker} (h1 : TrackerLe a b) (h2 : TrackerLe b c) :
    TrackerLe a c :=
  ⟨fun kv h => h2.1 kv (h1.1 kv h), fun k e h => h2.2 k e (h1.2 k e h)⟩

theorem trackerLe_insert_of_none (t : Tracker) (k : String) (e : TrackerEntry)
    (h : trackerLookup t k = none) : TrackerLe t (trackerInsert t k e) := by
  rw [trackerInsert_of_none t k e h]
  exact ⟨fun kv hkv => List.mem_append_left _ hkv,
    fun k' e' h' => trackerLookup_append_left t [(k, e)] k' e' h'⟩

theorem mem_keys_trackerInsert (t : Tracker) (k : String) (e : TrackerEntry) (k' : String)
    (h : k' ∈ trackerKeys (trackerInsert t k e)) : k' ∈ trackerKeys t ∨ k' = k := by
  induction t with
  | nil => simpa [trackerInsert, trackerKeys] using h
  | cons kv rest ih =>
      obtain ⟨k0, e0⟩ := kv
      by_cases hk : k0 = k
      · rw [trackerInsert, if_pos hk] at h
        simp only [trackerKeys, List.map_cons] at h ⊢
        rcases List.mem_cons.1 h with h | h
        · exact Or.inr h
        · exact Or.inl (List.mem_cons.2 (Or.inr h))
      · rw [trackerInsert, if_neg hk] at h
        simp only [trackerKeys, List.map_cons] at h ⊢
        rcases List.mem_cons.1 h with h | h
        · exact Or.inl (List.mem_cons.2 (Or.inl h))
        · rcases ih h with h | h
          · exact Or.inl (List.mem_cons.2 (Or.inr h))
          · exact Or.inr h

theorem trackerInsert_keys_nodup (t : Tracker) (k : String) (e : TrackerEntry)
    (h : (trackerKeys t).Nodup) : (trackerKeys (trackerInsert t k e)).Nodup := by
  induction t with
  | nil => simp [trackerInsert, trackerKeys]
  | cons kv rest ih =>
      obtain ⟨k0, e0⟩ := kv
      simp only [trackerKeys, List.map_cons, List.nodup_cons] at h
      by_cases hk : k0 = k
      · subst hk
        rw [trackerInsert, if_pos rfl]
        simp only [trackerKeys, List.map_cons, List.nodup_cons]
        exact h
      · rw [trackerInsert, if_neg hk]
        simp only [trackerKeys, List.map_cons, List.nodup_cons]
        refine ⟨fun hmem => ?_, ih h.2⟩
        rcases mem_keys_trackerInsert rest k e k0 hmem with hm | hm
        · exact h.1 hm
        · exact hk hm

/-! ### is_duplicate lemmas -/

theorem is_duplicate_false_of_not_skip (t : Tracker) (md5 fid : String) :
    is_duplicate false t md5 fid = false := by
  simp [is_duplicate]

theorem is_duplicate_true_unfold (t : Tracker) (md5 fid : String) :
    is_duplicate true t md5 fid =
      if md5 ≠ "" ∧ (trackerLookup t md5).isSome then true
      else t.any (fun kv => kv.2.file_id == fid) := by
  simp [is_duplicate]

theorem is_duplicate_of_lookup (t : Tracker) (md5 fid : String)
    (hmd5 : md5 ≠ "") (h : (trackerLookup t md5).isSome = true) :
    is_duplicate true t md5 fid = true := by
  rw [is_duplicate_true_unfold, if_pos ⟨hmd5, h⟩]

theorem is_duplicate_false_elim (t : Tracker) (md5 fid : String)
    (h : is_duplicate true t md5 fid = false) :
    (md5 = "" ∨ trackerLookup t md5 = none) ∧ ∀ kv ∈ t, kv.2.file_id ≠ fid := by
  rw [is_duplicate_true_unfold] at h
  by_cases hc : md5 ≠ "" ∧ (trackerLookup t md5).isSome
  · rw [if_pos hc] at h
    cases h
  · rw [if_neg hc] at h
    push_neg at hc
    constructor
    · by_cases hm : md5 = ""
      · exact Or.inl hm
      · exact Or.inr (Option.not_isSome_iff_eq_none.1 (by simp [hc hm]))
    · intro kv hkv heq
      have : t.any (fun kv => kv.2.file_id == fid) = true :=
        List.any_eq_true.2 ⟨kv, hkv, by simp [heq]⟩
      rw [this] at h
      cases h

theorem is_duplicate_mono (t t' : Tracker) (md5 fid : String) (h : TrackerLe t t')
    (hd : is_duplicate true t md5 fid = true) : is_duplicate true t' md5 fid = true := by
  rw [is_duplicate_true_unfold] at hd ⊢
  by_cases hc : md5 ≠ "" ∧ (trackerLookup t md5).isSome
  · obtain ⟨e, he⟩ := Option.isSome_iff_exists.1 hc.2
    have h' : (trackerLookup t' md5).isSome := by
      rw [h.2 md5 e he]; rfl
    rw [if_pos ⟨hc.1, h'⟩]
  · rw [if_neg hc] at hd
    obtain ⟨kv, hkv, hf⟩ := List.any_eq_true.1 hd
    by_cases hc' : md5 ≠ "" ∧ (trackerLookup t' md5).isSome
    · rw [if_pos hc']
    · rw [if_neg hc']
      exact List.any_eq_true.2 ⟨kv, h.1 kv hkv, hf⟩

/-! ### record_upload and processOne lemmas -/

theorem record_upload_upload_results (st : LoopState) (md5 fid pid path now : String) :
    (record_upload st md5 fid pid path now).upload_results = st.upload_results := by
  unfold record_upload
  by_cases h : md5 ≠ "" <;> simp [h]

theorem record_upload_skipped_count (st : LoopState) (md5 fid pid path now : String) :
    (record_upload st md5 fid pid path now).skipped_count = st.skipped_count := by
  unfold record_upload
  by_cases h : md5 ≠ "" <;> simp [h]

theorem record_upload_uploaded_photos_of_ne (st : LoopState) (md5 fid pid path now : String)
    (h : md5 ≠ "") :
    (record_upload st md5 fid pid path now).uploaded_photos =
      trackerInsert st.uploaded_photos md5 ⟨fid, pid, path, now⟩ := by
  unfold record_upload
  simp [h]

theorem processOne_of_dup (s : Bool) (aid : Option String) (env : AssetEnv)
    (photo : Photo) (st : LoopState)
    (h : is_duplicate s st.uploaded_photos (photo.md5Checksum.getD "") photo.id = true) :
    processOne s aid env photo st =
      { st with
        upload_results := st.upload_results ++
          [{ path := photo.path, file_id := photo.id, timestamp := env.now,
             success := true, status := "SKIPPED_DUPLICATE",
             md5Checksum := photo.md5Checksum.getD "" }],
        skipped_count := st.skipped_count + 1 } := by
  unfold processOne
  simp [h]

theorem processOne_of_error (s : Bool) (aid : Option String) (env : AssetEnv)
    (photo : Photo) (st : LoopState) (e : String)
    (hdup : is_duplicate s st.uploaded_photos (photo.md5Checksum.getD "") photo.id = false)
    (hdl : env.download = .error e) :
    processOne s aid env photo st =
      { st with
        upload_results := st.upload_results ++
          [{ path := photo.path, file_id := photo.id, timestamp := env.now,
             success := false, status := "ERROR",
             md5Checksum := photo.md5Checksum.getD "", error := some e }] } := by
  unfold processOne
  simp [hdup, hdl]

theorem processOne_of_fail (s : Bool) (aid : Option String) (env : AssetEnv)
    (photo : Photo) (st : LoopState) (u : Unit) (err : String)
    (hdup : is_duplicate s st.uploaded_photos (photo.md5Checksum.getD "") photo.id = false)
    (hdl : env.download = .ok u)
    (hup : upload_to_photos env.uploadResp env.createResp = .fail err) :
    processOne s aid env photo st =
      { st with
        upload_results := st.upload_results ++
          [{ path := photo.path, file_id := photo.id, timestamp := env.now,
             success := false, status := "FAILED",
             md5Checksum := photo.md5Checksum.getD "", error := some err }] } := by
  unfold processOne
  simp [hdup, hdl, hup]

theorem processOne_of_success (s : Bool) (aid : Option String) (env : AssetEnv)
    (photo : Photo) (st : LoopState) (u : Unit) (pid : String)
    (hdup : is_duplicate s st.uploaded_photos (photo.md5Checksum.getD "") photo.id = false)
    (hdl : env.download = .ok u)
    (hup : upload_to_photos env.uploadResp env.createResp = .ok pid) :
    processOne s aid env photo st =
      { record_upload st (photo.md5Checksum.getD "") photo.id pid photo.path env.now with
        upload_results :=
          (record_upload st (photo.md5Checksum.getD "") photo.id pid photo.path env.now).upload_results ++
            [{ path := photo.path, file_id := photo.id, timestamp := env.now,
               success := true, status := "SUCCESS",
               md5Checksum := photo.md5Checksum.getD "", photos_id := some pid }] } := by
  unfold processOne
  simp [hdup, hdl, hup]

theorem resultOf_of_dup (s : Bool) (env : AssetEnv) (photo : Photo) (st : LoopState)
    (h : is_duplicate s st.uploaded_photos (photo.md5Checksum.getD "") photo.id = true) :
    resultOf s env photo st =
      { path := photo.path, file_id := photo.id, timestamp := env.now, success := true,
        status := "SKIPPED_DUPLICATE", md5Checksum := photo.md5Checksum.getD "" } := by
  unfold resultOf
  simp [h]

theorem processOne_upload_results (s : Bool) (aid : Option String) (env : AssetEnv)
    (photo : Photo) (st : LoopState) :
    (processOne s aid env photo st).upload_results =
      st.upload_results ++ [resultOf s env photo st] := by
  cases hdup : is_duplicate s st.uploaded_photos (photo.md5Checksum.getD "") photo.id with
  | true =>
      rw [processOne_of_dup s aid env photo st hdup, resultOf_of_dup s env photo st hdup]
  | false =>
      cases hdl : env.download with
      | error e =>
          rw [processOne_of_error s aid env photo st e hdup hdl]
          unfold resultOf
          simp [hdup, hdl]
      | ok u =>
          cases hup : upload_to_photos env.uploadResp env.createResp with
          | ok pid =>
              rw [processOne_of_success s aid env photo st u pid hdup hdl hup]
              unfold resultOf
              simp [hdup, hdl, hup, record_upload_upload_results]
          | fail err =>
              rw [processOne_of_fail s aid env photo st u err hdup hdl hup]
              unfold resultOf
              simp [hdup, hdl, hup]

theorem processOne_trackerLe (aid : Option String) (env : AssetEnv)
    (photo : Photo) (st : LoopState) :
    TrackerLe st.uploaded_photos (processOne true aid env photo st).uploaded_photos := by
  cases hdup : is_duplicate true st.uploaded_photos (photo.md5Checksum.getD "") photo.id with
  | true =>
      rw [processOne_of_dup true aid env photo st hdup]
      exact trackerLe_refl _
  | false =>
      cases hdl : env.download with
      | error e =>
          rw [processOne_of_error true aid env photo st e hdup hdl]
          exact trackerLe_refl _
      | ok u =>
          cases hup : upload_to_photos env.uploadResp env.createResp with
          | fail err =>
              rw [processOne_of_fail true aid env photo st u err hdup hdl hup]
              exact trackerLe_refl _
          | ok pid =>
              rw [processOne_of_success true aid env photo st u pid hdup hdl hup]
              by_cases hmd5 : photo.md5Checksum.getD "" = ""
              · unfold record_upload
                simp [hmd5]
                exact trackerLe_refl _
              · show TrackerLe st.uploaded_photos
                  (record_upload st (photo.md5Checksum.getD "") photo.id pid photo.path env.now).uploaded_photos
                rw [record_upload_uploaded_photos_of_ne _ _ _ _ _ _ hmd5]
                rcases is_duplicate_false_elim _ _ _ hdup with ⟨hkey, _⟩
                rcases hkey with hkey | hkey
                · exact absurd hkey hmd5
                · exact trackerLe_insert_of_none _ _ _ hkey

theorem processOne_keys_nodup (s : Bool) (aid : Option String) (env : AssetEnv)
    (photo : Photo) (st : LoopState)
    (h : (trackerKeys st.uploaded_photos).Nodup) :
    (trackerKeys (processOne s aid env photo st).uploaded_photos).Nodup := by
  cases hdup : is_duplicate s st.uploaded_photos (photo.md5Checksum.getD "") photo.id with
  | true =>
      rw [processOne_of_dup s aid env photo st hdup]
      exact h
  | false =>
      cases hdl : env.download with
      | error e =>
          rw [processOne_of_error s aid env photo st e hdup hdl]
          exact h
      | ok u =>
          cases hup : upload_to_photos env.uploadResp env.createResp with
          | fail err =>
              rw [processOne_of_fail s aid env photo st u err hdup hdl hup]
              exact h
          | ok pid =>
              rw [processOne_of_success s aid env photo st u pid hdup hdl hup]
              show (trackerKeys (record_upload st (photo.md5Checksum.getD "") photo.id pid
                photo.path env.now).uploaded_photos).Nodup
              unfold record_upload
              by_cases hmd5 : photo.md5Checksum.getD "" ≠ ""
              · simp only [if_pos hmd5]
                exact trackerInsert_keys_nodup _ _ _ h
              · simp only [if_neg hmd5]
                exact h

theorem processOne_success_uploaded (s : Bool) (aid : Option String) (env : AssetEnv)
    (photo : Photo) (st : LoopState) (u : Unit) (pid : String)
    (hdup : is_duplicate s st.uploaded_photos (photo.md5Checksum.getD "") photo.id = false)
    (hdl : env.download = .ok u)
    (hup : upload_to_photos env.uploadResp env.createResp = .ok pid)
    (hmd5 : photo.md5Checksum.getD "" ≠ "") :
    (processOne s aid env photo st).uploaded_photos =
      trackerInsert st.uploaded_photos (photo.md5Checksum.getD "")
        ⟨photo.id, pid, photo.path, env.now⟩ := by
  rw [processOne_of_success s aid env photo st u pid hdup hdl hup]
  exact record_upload_uploaded_photos_of_ne _ _ _ _ _ _ hmd5

/-! ### resultOf lemmas -/

theorem resultOf_of_error (s : Bool) (env : AssetEnv) (photo : Photo) (st : LoopState)
    (e : String)
    (hdup : is_duplicate s st.uploaded_photos (photo.md5Checksum.getD "") photo.id = false)
    (hdl : env.download = .error e) :
    resultOf s env photo st =
      { path := photo.path, file_id := photo.id, timestamp := env.now, success := false,
        status := "ERROR", md5Checksum := photo.md5Checksum.getD "", error := some e } := by
  unfold resultOf
  simp [hdup, hdl]

theorem resultOf_of_fail (s : Bool) (env : AssetEnv) (photo : Photo) (st : LoopState)
    (u : Unit) (err : String)
    (hdup : is_duplicate s st.uploaded_photos (photo.md5Checksum.getD "") photo.id = false)
    (hdl : env.download = .ok u)
    (hup : upload_to_photos env.uploadResp env.createResp = .fail err) :
    resultOf s env photo st =
      { path := photo.path, file_id := photo.id, timestamp := env.now, success := false,
        status := "FAILED", md5Checksum := photo.md5Checksum.getD "", error := some err } := by
  unfold resultOf
  simp [hdup, hdl, hup]

theorem resultOf_of_success (s : Bool) (env : AssetEnv) (photo : Photo) (st : LoopState)
    (u : Unit) (pid : String)
    (hdup : is_duplicate s st.uploaded_photos (photo.md5Checksum.getD "") photo.id = false)
    (hdl : env.download = .ok u)
    (hup : upload_to_photos env.uploadResp env.createResp = .ok pid) :
    resultOf s env photo st =
      { path := photo.path, file_id := photo.id, timestamp := env.now, success := true,
        status := "SUCCESS", md5Checksum := photo.md5Checksum.getD "",
        photos_id := some pid } := by
  unfold resultOf
  simp [hdup, hdl, hup]

theorem resultOf_path (s : Bool) (env : AssetEnv) (photo : Photo) (st : LoopState) :
    (resultOf s env photo st).path = photo.path := by
  cases hdup : is_duplicate s st.uploaded_photos (photo.md5Checksum.getD "") photo.id with
  | true => rw [resultOf_of_dup s env photo st hdup]
  | false =>
      cases hdl : env.download with
      | error e => rw [resultOf_of_error s env photo st e hdup hdl]
      | ok u =>
          cases hup : upload_to_photos env.uploadResp env.createResp with
          | ok pid => rw [resultOf_of_success s env photo st u pid hdup hdl hup]
          | fail err => rw [resultOf_of_fail s env photo st u err hdup hdl hup]

theorem resultOf_file_id (s : Bool) (env : AssetEnv) (photo : Photo) (st : LoopState) :
    (resultOf s env photo st).file_id = photo.id := by
  cases hdup : is_duplicate s st.uploaded_photos (photo.md5Checksum.getD "") photo.id with
  | true => rw [resultOf_of_dup s env photo st hdup]
  | false =>
      cases hdl : env.download with
      | error e => rw [resultOf_of_error s env photo st e hdup hdl]
      | ok u =>
          cases hup : upload_to_photos env.uploadResp env.createResp with
          | ok pid => rw [resultOf_of_success s env photo st u pid hdup hdl hup]
          | fail err => rw [resultOf_of_fail s env photo st u err hdup hdl hup]

theorem resultOf_success_iff (s : Bool) (env : AssetEnv) (photo : Photo) (st : LoopState) :
    (resultOf s env photo st).success = true ↔
      ((resultOf s env photo st).status = "SUCCESS" ∨
       (resultOf s env photo st).status = "SKIPPED_DUPLICATE") := by
  cases hdup : is_duplicate s st.uploaded_photos (photo.md5Checksum.getD "") photo.id with
  | true => rw [resultOf_of_dup s env photo st hdup]; simp
  | false =>
      cases hdl : env.download with
      | error e => rw [resultOf_of_error s env photo st e hdup hdl]; simp
      | ok u =>
          cases hup : upload_to_photos env.uploadResp env.createResp with
          | ok pid => rw [resultOf_of_success s env photo st u pid hdup hdl hup]; simp
          | fail err => rw [resultOf_of_fail s env photo st u err hdup hdl hup]; simp

theorem resultOf_skipped_elim (s : Bool) (env : AssetEnv) (photo : Photo) (st : LoopState)
    (h : (resultOf s env photo st).status = "SKIPPED_DUPLICATE") :
    is_duplicate s st.uploaded_photos (photo.md5Checksum.getD "") photo.id = true := by
  cases hdup : is_duplicate s st.uploaded_photos (photo.md5Checksum.getD "") photo.id with
  | true => rfl
  | false =>
      exfalso
      cases hdl : env.download with
      | error e => rw [resultOf_of_error s env photo st e hdup hdl] at h; simp at h
      | ok u =>
          cases hup : upload_to_photos env.uploadResp env.createResp with
          | ok pid => rw [resultOf_of_success s env photo st u pid hdup hdl hup] at h; simp at h
          | fail err => rw [resultOf_of_fail s env photo st u err hdup hdl hup] at h; simp at h

theorem resultOf_success_elim (s : Bool) (env : AssetEnv) (photo : Photo) (st : LoopState)
    (h : (resultOf s env photo st).status = "SUCCESS") :
    is_duplicate s st.uploaded_photos (photo.md5Checksum.getD "") photo.id = false ∧
    ∃ u pid, env.download = .ok u ∧ upload_to_photos env.uploadResp env.createResp = .ok pid := by
  cases hdup : is_duplicate s st.uploaded_photos (photo.md5Checksum.getD "") photo.id with
  | true =>
      rw [resultOf_of_dup s env photo st hdup] at h
      simp at h
  | false =>
      refine ⟨rfl, ?_⟩
      cases hdl : env.download with
      | error e => rw [resultOf_of_error s env photo st e hdup hdl] at h; simp at h
      | ok u =>
          cases hup : upload_to_photos env.uploadResp env.createResp with
          | ok pid => exact ⟨u, pid, rfl, rfl⟩
          | fail err => rw [resultOf_of_fail s env photo st u err hdup hdl hup] at h; simp at h

/-! ### runLoop and runResults lemmas -/

theorem runLoop_upload_results (s : Bool) (aid : Option String) (envs : Nat → AssetEnv)
    (photos : List Photo) : ∀ (i : Nat) (st : LoopState),
    (runLoop s aid envs i photos st).upload_results =
      st.upload_results ++ runResults s aid envs i photos st := by
  induction photos with
  | nil => intro i st; simp [runLoop, runResults]
  | cons p rest ih =>
      intro i st
      show (runLoop s aid envs (i + 1) rest (processOne s aid (envs i) p st)).upload_results
        = st.upload_results ++ runResults s aid envs i (p :: rest) st
      rw [ih (i + 1), processOne_upload_results]
      show st.upload_results ++ [resultOf s (envs i) p st] ++ _
        = st.upload_results ++ (resultOf s (envs i) p st ::
            runResults s aid envs (i + 1) rest (processOne s aid (envs i) p st))
      simp

theorem runLoop_trackerLe (aid : Option String) (envs : Nat → AssetEnv)
    (photos : List Photo) : ∀ (i : Nat) (st : LoopState),
    TrackerLe st.uploaded_photos (runLoop true aid envs i photos st).uploaded_photos := by
  induction photos with
  | nil => intro i st; exact trackerLe_refl _
  | cons p rest ih =>
      intro i st
      exact trackerLe_trans (processOne_trackerLe aid (envs i) p st)
        (ih (i + 1) (processOne true aid (envs i) p st))

theorem runLoop_keys_nodup (s : Bool) (aid : Option String) (envs : Nat → AssetEnv)
    (photos : List Photo) : ∀ (i : Nat) (st : LoopState),
    (trackerKeys st.uploaded_photos).Nodup →
    (trackerKeys (runLoop s aid envs i photos st).uploaded_photos).Nodup := by
  induction photos with
  | nil => intro i st h; exact h
  | cons p rest ih =>
      intro i st h
      exact ih (i + 1) _ (processOne_keys_nodup s aid (envs i) p st h)

theorem runLoop_append (s : Bool) (aid : Option String) (envs : Nat → AssetEnv)
    (l1 l2 : List Photo) : ∀ (i : Nat) (st : LoopState),
    runLoop s aid envs i (l1 ++ l2) st =
      runLoop s aid envs (i + l1.length) l2 (runLoop s aid envs i l1 st) := by
  induction l1 with
  | nil => intro i st; simp [runLoop]
  | cons p rest ih =>
      intro i st
      show runLoop s aid envs (i + 1) (rest ++ l2) (processOne s aid (envs i) p st) = _
      rw [ih (i + 1)]
      have harith : i + 1 + rest.length = i + (p :: rest).length := by
        simp [List.length_cons]
        omega
      rw [harith]
      rfl

theorem runResults_length (s : Bool) (aid : Option String) (envs : Nat → AssetEnv)
    (photos : List Photo) : ∀ (i : Nat) (st : LoopState),
    (runResults s aid envs i photos st).length = photos.length := by
  induction photos with
  | nil => intro i st; rfl
  | cons p rest ih =>
      intro i st
      show (resultOf s (envs i) p st ::
        runResults s aid envs (i + 1) rest (processOne s aid (envs i) p st)).length = _
      simp [ih (i + 1)]

theorem runResults_getElem? (s : Bool) (aid : Option String) (envs : Nat → AssetEnv)
    (photos : List Photo) : ∀ (i : Nat) (st : LoopState) (j : Nat) (p : Photo),
    photos[j]? = some p →
    ∃ stj, (runResults s aid envs i photos st)[j]? = some (resultOf s (envs (i + j)) p stj) := by
  induction photos with
  | nil => intro i st j p h; simp at h
  | cons q rest ih =>
      intro i st j p h
      cases j with
      | zero =>
          have hq : q = p := by simpa using h
          subst hq
          exact ⟨st, by simp [runResults]⟩
      | succ j' =>
          have h' : rest[j']? = some p := by simpa using h
          obtain ⟨stj, hstj⟩ := ih (i + 1) (processOne s aid (envs i) q st) j' p h'
          refine ⟨stj, ?_⟩
          show (resultOf s (envs i) q st ::
            runResults s aid envs (i + 1) rest (processOne s aid (envs i) q st))[j' + 1]? = _
          rw [List.getElem?_cons_succ, hstj]
          rw [show i + 1 + j' = i + (j' + 1) from by omega]

theorem runResults_success_iff (s : Bool) (aid : Option String) (envs : Nat → AssetEnv)
    (photos : List Photo) : ∀ (i : Nat) (st : LoopState) (r : UploadResult),
    r ∈ runResults s aid envs i photos st →
    (r.success = true ↔ (r.status = "SUCCESS" ∨ r.status = "SKIPPED_DUPLICATE")) := by
  induction photos with
  | nil => intro i st r h; simp [runResults] at h
  | cons q rest ih =>
      intro i st r h
      have h2 : r = resultOf s (envs i) q st ∨
          r ∈ runResults s aid envs (i + 1) rest (processOne s aid (envs i) q st) :=
        List.mem_cons.1 h
      rcases h2 with h2 | h2
      · subst h2
        exact resultOf_success_iff s (envs i) q st
      · exact ih (i + 1) _ r h2

/-! ### upload_all lemmas -/

theorem upload_all_ok (s : Bool) (arg : Option String) (env : RunEnv)
    (photos : List Photo) (t0 f0 : Tracker) (h : env.albumResp.status_code = 200) :
    upload_all s arg env photos t0 f0 = .ok
      { albums_created := [album_name arg env.now], album_id := env.albumResp.id,
        final := runLoop s env.albumResp.id env.assetEnv 0 photos ⟨[], t0, f0, 0⟩ } := by
  unfold upload_all create_album
  simp [h]

theorem upload_all_error (s : Bool) (arg : Option String) (env : RunEnv)
    (photos : List Photo) (t0 f0 : Tracker) (h : env.albumResp.status_code ≠ 200) :
    upload_all s arg env photos t0 f0 = .error
      ("Failed to create album: " ++ toString env.albumResp.status_code ++ " - " ++
        env.albumResp.text) := by
  unfold upload_all create_album
  simp [h]

theorem upload_all_ok_elim (s : Bool) (arg : Option String) (env : RunEnv)
    (photos : List Photo) (t0 f0 : Tracker) (out : RunResult)
    (h : upload_all s arg env photos t0 f0 = .ok out) :
    env.albumResp.status_code = 200 ∧
    out = { albums_created := [album_name arg env.now], album_id := env.albumResp.id,
            final := runLoop s env.albumResp.id env.assetEnv 0 photos ⟨[], t0, f0, 0⟩ } := by
  by_cases hc : env.albumResp.status_code = 200
  · rw [upload_all_ok s arg env photos t0 f0 hc] at h
    refine ⟨hc, ?_⟩
    injection h with h
    exact h.symm
  · rw [upload_all_error s arg env photos t0 f0 hc] at h
    cases h

/-! ### Claim theorems for photos_uploader.py -/

/-- C5: `is_duplicate(checksum, sourceId)` is true iff duplicate-skipping is
enabled AND (the checksum is non-empty and present as a key of the tracker
map, OR some existing entry's recorded source identifier equals sourceId);
with duplicate-skipping disabled it is false on every input. -/
theorem c5_is_duplicate_spec (skip : Bool) (t : Tracker) (md5 fid : String) :
    (is_duplicate skip t md5 fid = true ↔
      (skip = true ∧ ((md5 ≠ "" ∧ ∃ e, (md5, e) ∈ t) ∨ ∃ kv ∈ t, kv.2.file_id = fid))) ∧
    (skip = false → is_duplicate skip t md5 fid = false) := by
  constructor
  · cases skip with
    | false => simp [is_duplicate_false_of_not_skip]
    | true =>
        rw [is_duplicate_true_unfold]
        by_cases hc : md5 ≠ "" ∧ (trackerLookup t md5).isSome
        · rw [if_pos hc]
          constructor
          · intro _
            exact ⟨rfl, Or.inl ⟨hc.1, (trackerLookup_isSome_iff t md5).1 hc.2⟩⟩
          · intro _
            rfl
        · rw [if_neg hc]
          rw [List.any_eq_true]
          constructor
          · rintro ⟨kv, hkv, hf⟩
            exact ⟨rfl, Or.inr ⟨kv, hkv, by simpa using hf⟩⟩
          · rintro ⟨-, (⟨hmd5, e, he⟩ | ⟨kv, hkv, hf⟩)⟩
            · exact absurd ⟨hmd5, (trackerLookup_isSome_iff t md5).2 ⟨e, he⟩⟩ hc
            · exact ⟨kv, hkv, by simpa using hf⟩
  · intro h
    subst h
    exact is_duplicate_false_of_not_skip t md5 fid

/-- Witness for C5 at a concrete input. -/
theorem c5_witness :
    is_duplicate false dupTracker "abc" "fa" = false ∧
    (is_duplicate true dupTracker "abc" "fa" = true ↔
      (true = true ∧ (("abc" ≠ "" ∧ ∃ e, ("abc", e) ∈ dupTracker) ∨
        ∃ kv ∈ dupTracker, kv.2.file_id = "fa"))) :=
  ⟨(c5_is_duplicate_spec false dupTracker "abc" "fa").2 rfl,
   (c5_is_duplicate_spec true dupTracker "abc" "fa").1⟩

/-- C2 as frozen is false at a concrete input: on a 500 `batchCreate`
response with body `"Server exploded"`, the result's status is FAILED and
the tracker map and file are untouched, but the recorded error text is the
formatted `"Media item creation failed: 500 - Server exploded"`, which does
not equal the server's response body. -/
theorem c2_counterexample :
    (processOne true none badCreateEnv photoA loopState0).upload_results =
      [{ path := "root/a.jpg", file_id := "fa", timestamp := "T0", success := false,
         status := "FAILED", md5Checksum := "abc",
         error := some "Media item creation failed: 500 - Server exploded" }] ∧
    (∀ r ∈ (processOne true none badCreateEnv photoA loopState0).upload_results,
      r.error ≠ some "Server exploded") ∧
    (processOne true none badCreateEnv photoA loopState0).uploaded_photos = [] ∧
    (processOne true none badCreateEnv photoA loopState0).tracker_file = [] := by
  decide

/-- C2 (amended): when a non-duplicate asset downloads, its bytes upload
returns 200 and `batchCreate` returns a non-200 status, the asset's result
has status FAILED with error text `"Media item creation failed: <status> -
<body>"` (carrying the server's response body as a suffix rather than
equalling it), and the tracker map and tracker file are unchanged by that
asset. -/
theorem c2_batchCreate_failure (s : Bool) (aid : Option String) (env : AssetEnv)
    (photo : Photo) (st : LoopState) (u : Unit)
    (hdup : is_duplicate s st.uploaded_photos (photo.md5Checksum.getD "") photo.id = false)
    (hdl : env.download = .ok u)
    (hok : env.uploadResp.status_code = 200)
    (hcr : env.createResp.status_code ≠ 200) :
    processOne s aid env photo st =
      { st with upload_results := st.upload_results ++
          [{ path := photo.path, file_id := photo.id, timestamp := env.now, success := false,
             status := "FAILED", md5Checksum := photo.md5Checksum.getD "",
             error := some ("Media item creation failed: " ++
               toString env.createResp.status_code ++ " - " ++ env.createResp.text) }] } := by
  have hup : upload_to_photos env.uploadResp env.createResp =
      .fail ("Media item creation failed: " ++ toString env.createResp.status_code ++ " - " ++
        env.createResp.text) := by
    unfold upload_to_photos
    simp [hok, hcr]
  exact processOne_of_fail s aid env photo st u _ hdup hdl hup

/-- Witness for the amended C2 at a concrete input. -/
theorem c2_witness :
    is_duplicate true loopState0.uploaded_photos (photoA.md5Checksum.getD "") photoA.id
      = false ∧
    badCreateEnv.download = .ok () ∧
    badCreateEnv.uploadResp.status_code = 200 ∧
    badCreateEnv.createResp.status_code ≠ 200 ∧
    processOne true none badCreateEnv photoA loopState0 =
      { loopState0 with upload_results := loopState0.upload_results ++
          [{ path := photoA.path, file_id := photoA.id, timestamp := badCreateEnv.now,
             success := false, status := "FAILED",
             md5Checksum := photoA.md5Checksum.getD "",
             error := some ("Media item creation failed: " ++
               toString badCreateEnv.createResp.status_code ++ " - " ++
               badCreateEnv.createResp.text) }] } :=
  ⟨by decide, by decide, by decide, by decide,
   c2_batchCreate_failure true none badCreateEnv photoA loopState0 ()
     (by decide) (by decide) (by decide) (by decide)⟩

/-- C6: when the Tracker judges an asset a duplicate, the loop body appends
exactly one SKIPPED_DUPLICATE result and bumps the skip counter, leaving the
tracker map and file untouched (so `record` is never called); moreover the
outcome is identical for every asset oracle with the same clock value, i.e.
no download, bytes upload or `batchCreate` response is ever consulted — the
duplicate check precedes all network I/O for the asset. -/
theorem c6_duplicate_skips (s : Bool) (aid : Option String) (env : AssetEnv)
    (photo : Photo) (st : LoopState)
    (h : is_duplicate s st.uploaded_photos (photo.md5Checksum.getD "") photo.id = true) :
    processOne s aid env photo st =
      { st with
        upload_results := st.upload_results ++
          [{ path := photo.path, file_id := photo.id, timestamp := env.now, success := true,
             status := "SKIPPED_DUPLICATE", md5Checksum := photo.md5Checksum.getD "" }],
        skipped_count := st.skipped_count + 1 } ∧
    ∀ env' : AssetEnv, env'.now = env.now →
      processOne s aid env' photo st = processOne s aid env photo st := by
  refine ⟨processOne_of_dup s aid env photo st h, fun env' hnow => ?_⟩
  rw [processOne_of_dup s aid env photo st h, processOne_of_dup s aid env' photo st h, hnow]

/-- Witness for C6 at a concrete input. -/
theorem c6_witness :
    is_duplicate true dupState.uploaded_photos (photoA.md5Checksum.getD "") photoA.id
      = true ∧
    processOne true none (happyEnv "P1" "T1") photoA dupState =
      { dupState with
        upload_results := dupState.upload_results ++
          [{ path := photoA.path, file_id := photoA.id, timestamp := (happyEnv "P1" "T1").now,
             success := true, status := "SKIPPED_DUPLICATE",
             md5Checksum := photoA.md5Checksum.getD "" }],
        skipped_count := dupState.skipped_count + 1 } :=
  ⟨by decide,
   (c6_duplicate_skips true none (happyEnv "P1" "T1") photoA dupState (by decide)).1⟩

/-- C10: with duplicate-skipping enabled, an asset whose source id equals
the `file_id` stored in some tracker entry is classified as a duplicate and
skipped even when it carries a non-empty checksum that is not a tracker key
— so a source file whose content changed since a prior tracked upload is
not re-uploaded. -/
theorem c10_file_id_duplicate (aid : Option String) (env : AssetEnv) (photo : Photo)
    (st : LoopState) (kv : String × TrackerEntry)
    (hmem : kv ∈ st.uploaded_photos) (hfid : kv.2.file_id = photo.id)
    (hmd5 : photo.md5Checksum.getD "" ≠ "")
    (hnokey : trackerLookup st.uploaded_photos (photo.md5Checksum.getD "") = none) :
    is_duplicate true st.uploaded_photos (photo.md5Checksum.getD "") photo.id = true ∧
    processOne true aid env photo st =
      { st with
        upload_results := st.upload_results ++
          [{ path := photo.path, file_id := photo.id, timestamp := env.now, success := true,
             status := "SKIPPED_DUPLICATE", md5Checksum := photo.md5Checksum.getD "" }],
        skipped_count := st.skipped_count + 1 } := by
  have hdup : is_duplicate true st.uploaded_photos (photo.md5Checksum.getD "") photo.id
      = true := by
    rw [is_duplicate_true_unfold, if_neg (by simp [hnokey])]
    exact List.any_eq_true.2 ⟨kv, hmem, by simp [hfid]⟩
  exact ⟨hdup, processOne_of_dup true aid env photo st hdup⟩

/-- Witness for C10 at a concrete input. -/
theorem c10_witness :
    ("zzz", (⟨"fa", "P0", "old/path.jpg", "T0"⟩ : TrackerEntry)) ∈ c10State.uploaded_photos ∧
    is_duplicate true c10State.uploaded_photos (photoA.md5Checksum.getD "") photoA.id
      = true ∧
    processOne true none (happyEnv "P1" "T1") photoA c10State =
      { c10State with
        upload_results := c10State.upload_results ++
          [{ path := photoA.path, file_id := photoA.id, timestamp := (happyEnv "P1" "T1").now,
             success := true, status := "SKIPPED_DUPLICATE",
             md5Checksum := photoA.md5Checksum.getD "" }],
        skipped_count := c10State.skipped_count + 1 } :=
  ⟨by decide,
   (c10_file_id_duplicate none (happyEnv "P1" "T1") photoA c10State
     ("zzz", ⟨"fa", "P0", "old/path.jpg", "T0"⟩)
     (by decide) (by decide) (by decide) (by decide)).1,
   (c10_file_id_duplicate none (happyEnv "P1" "T1") photoA c10State
     ("zzz", ⟨"fa", "P0", "old/path.jpg", "T0"⟩)
     (by decide) (by decide) (by decide) (by decide)).2⟩

/-- C3 as frozen is false at a concrete input: with duplicate-skipping
disabled, two successive successful uploads of assets sharing checksum
`"abc"` leave the tracker entry for `"abc"` overwritten — the entry present
after the first asset differs from the one at the end of the same run. -/
theorem c3_counterexample :
    trackerLookup (runLoop false none c3Envs 0 [photoA] loopState0).uploaded_photos "abc" =
      some ⟨"fa", "P1", "root/a.jpg", "T1"⟩ ∧
    trackerLookup (runLoop false none c3Envs 0 [photoA, photoB] loopState0).uploaded_photos
      "abc" = some ⟨"fb", "P2", "root/b.jpg", "T2"⟩ ∧
    (⟨"fa", "P1", "root/a.jpg", "T1"⟩ : TrackerEntry) ≠ ⟨"fb", "P2", "root/b.jpg", "T2"⟩ := by
  decide

/-- C3 (amended): the tracker always holds at most one entry per checksum
(distinct keys are preserved through a run, for either flag setting); and
when duplicate-skipping is ENABLED, an entry present after any prefix of
the run is still present, unchanged, at the end of that run.  (With the
flag disabled a later successful upload of the same checksum overwrites the
entry, as the counterexample shows.) -/
theorem c3_tracker_invariant (s : Bool) (aid : Option String) (envs : Nat → AssetEnv)
    (i : Nat) (pre suf : List Photo) (st0 : LoopState)
    (hnd : (trackerKeys st0.uploaded_photos).Nodup) :
    (trackerKeys (runLoop s aid envs i (pre ++ suf) st0).uploaded_photos).Nodup ∧
    (s = true → ∀ k e,
      trackerLookup (runLoop s aid envs i pre st0).uploaded_photos k = some e →
      trackerLookup (runLoop s aid envs i (pre ++ suf) st0).uploaded_photos k = some e) := by
  refine ⟨runLoop_keys_nodup s aid envs (pre ++ suf) i st0 hnd, fun hs k e h => ?_⟩
  subst hs
  rw [runLoop_append true aid envs pre suf i st0]
  exact (runLoop_trackerLe aid envs suf (i + pre.length) _).2 k e h

/-- Witness for the amended C3 at a concrete input. -/
theorem c3_witness :
    (trackerKeys loopState0.uploaded_photos).Nodup ∧
    (trackerKeys (runLoop true none c3Envs 0 ([photoA] ++ [photoB])
      loopState0).uploaded_photos).Nodup :=
  ⟨by decide,
   (c3_tracker_invariant true none c3Envs 0 [photoA] [photoB] loopState0 (by decide)).1⟩

/-- C9: each pipeline run creates exactly one destination collection — on a
200 album response, `upload_all` reports exactly one created collection,
titled by the caller-supplied name, or `"Drive Import <local date-time>"`
when the caller supplied none (or an empty string, per Python `or`); on a
non-200 response the run raises with the album-creation error before any
per-asset processing: no Upload Result exists and the outcome is identical
for every photos list, tracker state and per-asset oracle. -/
theorem c9_single_album (s : Bool) (arg : Option String) (env : RunEnv)
    (photos : List Photo) (t0 f0 : Tracker) :
    (env.albumResp.status_code = 200 →
      ∃ out, upload_all s arg env photos t0 f0 = .ok out ∧
        out.albums_created =
          [match arg with
           | none => "Drive Import " ++ env.now
           | some t => if t = "" then "Drive Import " ++ env.now else t]) ∧
    (env.albumResp.status_code ≠ 200 →
      upload_all s arg env photos t0 f0 = .error
        ("Failed to create album: " ++ toString env.albumResp.status_code ++ " - " ++
          env.albumResp.text) ∧
      ∀ (env' : RunEnv) (photos' : List Photo) (t0' f0' : Tracker),
        env'.albumResp = env.albumResp → env'.now = env.now →
        upload_all s arg env' photos' t0' f0' = upload_all s arg env photos t0 f0) := by
  constructor
  · intro h
    refine ⟨_, upload_all_ok s arg env photos t0 f0 h, ?_⟩
    cases arg <;> rfl
  · intro h
    refine ⟨upload_all_error s arg env photos t0 f0 h, fun env' photos' t0' f0' ha hn => ?_⟩
    have h' : env'.albumResp.status_code ≠ 200 := by rw [ha]; exact h
    rw [upload_all_error s arg env' photos' t0' f0' h',
      upload_all_error s arg env photos t0 f0 h, ha]

/-- Witness for C9 at concrete inputs (both the success and the failure
branch are exercised). -/
theorem c9_witness :
    (∃ out, upload_all true none (runEnvWith (happyEnv "P1" "T1")) [photoA] [] [] = .ok out ∧
      out.albums_created = ["Drive Import " ++ (runEnvWith (happyEnv "P1" "T1")).now]) ∧
    (upload_all true none badAlbumEnv [photoA] [] [] = .error
      ("Failed to create album: " ++ toString badAlbumEnv.albumResp.status_code ++ " - " ++
        badAlbumEnv.albumResp.text) ∧
      ∀ (env' : RunEnv) (photos' : List Photo) (t0' f0' : Tracker),
        env'.albumResp = badAlbumEnv.albumResp → env'.now = badAlbumEnv.now →
        upload_all true none env' photos' t0' f0' =
          upload_all true none badAlbumEnv [photoA] [] []) :=
  ⟨(c9_single_album true none (runEnvWith (happyEnv "P1" "T1")) [photoA] [] []).1 (by decide),
   (c9_single_album true none badAlbumEnv [photoA] [] []).2 (by decide)⟩

/-- C4: once the album is created, `upload_all` produces exactly one Upload
Result per asset, in input order (result `j` carries asset `j`'s path and
source id), no single asset's failure aborting the rest — the run completes
with a full result list for every per-asset oracle — and each result's
success flag is true iff its status is SUCCESS or SKIPPED_DUPLICATE. -/
theorem c4_one_result_per_asset (s : Bool) (arg : Option String) (env : RunEnv)
    (photos : List Photo) (t0 f0 : Tracker)
    (halbum : env.albumResp.status_code = 200) :
    ∃ out, upload_all s arg env photos t0 f0 = .ok out ∧
      out.final.upload_results.length = photos.length ∧
      (∀ (j : Nat) (r : UploadResult) (p : Photo),
        out.final.upload_results[j]? = some r → photos[j]? = some p →
        r.path = p.path ∧ r.file_id = p.id) ∧
      (∀ r ∈ out.final.upload_results,
        (r.success = true ↔ (r.status = "SUCCESS" ∨ r.status = "SKIPPED_DUPLICATE"))) := by
  have hres : (runLoop s env.albumResp.id env.assetEnv 0 photos
      (⟨[], t0, f0, 0⟩ : LoopState)).upload_results =
      runResults s env.albumResp.id env.assetEnv 0 photos ⟨[], t0, f0, 0⟩ := by
    rw [runLoop_upload_results]
    rfl
  refine ⟨_, upload_all_ok s arg env photos t0 f0 halbum, ?_, ?_, ?_⟩
  · show (runLoop s env.albumResp.id env.assetEnv 0 photos
      (⟨[], t0, f0, 0⟩ : LoopState)).upload_results.length = photos.length
    rw [hres]
    exact runResults_length s env.albumResp.id env.assetEnv photos 0 _
  · intro j r p hr hp
    have hr2 : (runResults s env.albumResp.id env.assetEnv 0 photos
        (⟨[], t0, f0, 0⟩ : LoopState))[j]? = some r := by
      rw [← hres]
      exact hr
    obtain ⟨stj, hstj⟩ := runResults_getElem? s env.albumResp.id env.assetEnv photos 0
      ⟨[], t0, f0, 0⟩ j p hp
    rw [hstj] at hr2
    have hr' : r = resultOf s (env.assetEnv (0 + j)) p stj := (Option.some.inj hr2).symm
    rw [hr']
    exact ⟨resultOf_path _ _ _ _, resultOf_file_id _ _ _ _⟩
  · intro r hr
    have hr2 : r ∈ runResults s env.albumResp.id env.assetEnv 0 photos
        (⟨[], t0, f0, 0⟩ : LoopState) := by
      rw [← hres]
      exact hr
    exact runResults_success_iff s env.albumResp.id env.assetEnv photos 0 _ r hr2

/-- Witness for C4 at a concrete input. -/
theorem c4_witness :
    (runEnvWith (happyEnv "P1" "T1")).albumResp.status_code = 200 ∧
    ∃ out, upload_all true none (runEnvWith (happyEnv "P1" "T1")) [photoA, photoB] [] []
        = .ok out ∧
      out.final.upload_results.length = ([photoA, photoB] : List Photo).length ∧
      (∀ (j : Nat) (r : UploadResult) (p : Photo),
        out.final.upload_results[j]? = some r → ([photoA, photoB] : List Photo)[j]? = some p →
        r.path = p.path ∧ r.file_id = p.id) ∧
      (∀ r ∈ out.final.upload_results,
        (r.success = true ↔ (r.status = "SUCCESS" ∨ r.status = "SKIPPED_DUPLICATE"))) :=
  ⟨by decide,
   c4_one_result_per_asset true none (runEnvWith (happyEnv "P1" "T1")) [photoA, photoB] [] []
     (by decide)⟩

/-- The heart of the amended C7: if, position by position, the second run
starts from a tracker at least as full as the one the first run finishes
with, then any asset with a non-empty checksum whose first-run result was
SUCCESS or SKIPPED_DUPLICATE yields SKIPPED_DUPLICATE in the second run. -/
theorem second_run_skips (aid1 aid2 : Option String) (envs1 envs2 : Nat → AssetEnv) :
    ∀ (photos : List Photo) (i1 i2 : Nat) (st1 st2 : LoopState),
    TrackerLe (runLoop true aid1 envs1 i1 photos st1).uploaded_photos st2.uploaded_photos →
    ∀ (j : Nat) (p : Photo) (r1 r2 : UploadResult),
      photos[j]? = some p →
      (runResults true aid1 envs1 i1 photos st1)[j]? = some r1 →
      (runResults true aid2 envs2 i2 photos st2)[j]? = some r2 →
      p.md5Checksum.getD "" ≠ "" →
      (r1.status = "SUCCESS" ∨ r1.status = "SKIPPED_DUPLICATE") →
      r2.status = "SKIPPED_DUPLICATE"
  | [], _, _, _, _, _, _, _, _, _, hp, _, _, _, _ => by simp at hp
  | q :: rest, i1, i2, st1, st2, hle, j, p, r1, r2, hp, hr1, hr2, hmd5, hok => by
      have hrr1 : runResults true aid1 envs1 i1 (q :: rest) st1
          = resultOf true (envs1 i1) q st1 ::
            runResults true aid1 envs1 (i1 + 1) rest (processOne true aid1 (envs1 i1) q st1) :=
        rfl
      have hrr2 : runResults true aid2 envs2 i2 (q :: rest) st2
          = resultOf true (envs2 i2) q st2 ::
            runResults true aid2 envs2 (i2 + 1) rest (processOne true aid2 (envs2 i2) q st2) :=
        rfl
      cases j with
      | zero =>
          have hq : q = p := by simpa using hp
          subst hq
          rw [hrr1, List.getElem?_cons_zero] at hr1
          rw [hrr2, List.getElem?_cons_zero] at hr2
          have hr1' : r1 = resultOf true (envs1 i1) q st1 := (Option.some.inj hr1).symm
          have hr2' : r2 = resultOf true (envs2 i2) q st2 := (Option.some.inj hr2).symm
          have hfinal : TrackerLe (runLoop true aid1 envs1 (i1 + 1) rest
              (processOne true aid1 (envs1 i1) q st1)).uploaded_photos st2.uploaded_photos :=
            hle
          rcases hok with hsucc | hskip
          · rw [hr1'] at hsucc
            obtain ⟨hdup1, u, pid, hdl, hup⟩ := resultOf_success_elim _ _ _ _ hsucc
            have hkey : trackerLookup (processOne true aid1 (envs1 i1) q st1).uploaded_photos
                (q.md5Checksum.getD "") = some ⟨q.id, pid, q.path, (envs1 i1).now⟩ := by
              rw [processOne_success_uploaded true aid1 (envs1 i1) q st1 u pid hdup1 hdl hup
                hmd5]
              exact trackerInsert_lookup_self _ _ _
            have hle2 : TrackerLe (processOne true aid1 (envs1 i1) q st1).uploaded_photos
                st2.uploaded_photos :=
              trackerLe_trans (runLoop_trackerLe aid1 envs1 rest (i1 + 1)
                (processOne true aid1 (envs1 i1) q st1)) hfinal
            have hkey2 := hle2.2 _ _ hkey
            have hdup2 : is_duplicate true st2.uploaded_photos (q.md5Checksum.getD "") q.id
                = true := by
              apply is_duplicate_of_lookup _ _ _ hmd5
              rw [hkey2]
              rfl
            rw [hr2', resultOf_of_dup true (envs2 i2) q st2 hdup2]
          · rw [hr1'] at hskip
            have hdup1 := resultOf_skipped_elim _ _ _ _ hskip
            have hle1 : TrackerLe st1.uploaded_photos st2.uploaded_photos :=
              trackerLe_trans (runLoop_trackerLe aid1 envs1 (q :: rest) i1 st1) hle
            have hdup2 := is_duplicate_mono _ _ _ _ hle1 hdup1
            rw [hr2', resultOf_of_dup true (envs2 i2) q st2 hdup2]
      | succ j' =>
          have hp' : rest[j']? = some p := by simpa using hp
          rw [hrr1, List.getElem?_cons_succ] at hr1
          rw [hrr2, List.getElem?_cons_succ] at hr2
          refine second_run_skips aid1 aid2 envs1 envs2 rest (i1 + 1) (i2 + 1)
            (processOne true aid1 (envs1 i1) q st1) (processOne true aid2 (envs2 i2) q st2)
            ?_ j' p r1 r2 hp' hr1 hr2 hmd5 hok
          exact trackerLe_trans hle (processOne_trackerLe aid2 (envs2 i2) q st2)

/-- C7 (amended): running the pipeline twice over the same asset list with
duplicate-skipping enabled, the second run starting from the Tracker state
the first run left, every asset with a non-empty checksum whose FIRST-run
status was SUCCESS or SKIPPED_DUPLICATE gets status SKIPPED_DUPLICATE on
the second run — so the second run yields no new SUCCESS for any asset the
first run handled successfully.  (An asset that FAILED or ERRORed in the
first run is not tracked and may still succeed in the second, as the
counterexample shows.) -/
theorem c7_second_run_idempotent (arg1 arg2 : Option String) (env1 env2 : RunEnv)
    (photos : List Photo) (t0 f0 : Tracker) (out1 out2 : RunResult)
    (hrun1 : upload_all true arg1 env1 photos t0 f0 = .ok out1)
    (hrun2 : upload_all true arg2 env2 photos out1.final.uploaded_photos
      out1.final.tracker_file = .ok out2)
    (j : Nat) (p : Photo) (r1 r2 : UploadResult)
    (hp : photos[j]? = some p)
    (hr1 : out1.final.upload_results[j]? = some r1)
    (hr2 : out2.final.upload_results[j]? = some r2)
    (hmd5 : p.md5Checksum.getD "" ≠ "")
    (hok : r1.status = "SUCCESS" ∨ r1.status = "SKIPPED_DUPLICATE") :
    r2.status = "SKIPPED_DUPLICATE" := by
  obtain ⟨ha1, hout1⟩ := upload_all_ok_elim _ _ _ _ _ _ _ hrun1
  obtain ⟨ha2, hout2⟩ := upload_all_ok_elim _ _ _ _ _ _ _ hrun2
  have hres1 : out1.final.upload_results =
      runResults true env1.albumResp.id env1.assetEnv 0 photos ⟨[], t0, f0, 0⟩ := by
    rw [hout1]
    show (runLoop true env1.albumResp.id env1.assetEnv 0 photos
      (⟨[], t0, f0, 0⟩ : LoopState)).upload_results = _
    rw [runLoop_upload_results]
    rfl
  have hres2 : out2.final.upload_results =
      runResults true env2.albumResp.id env2.assetEnv 0 photos
        ⟨[], out1.final.uploaded_photos, out1.final.tracker_file, 0⟩ := by
    rw [hout2]
    show (runLoop true env2.albumResp.id env2.assetEnv 0 photos
      (⟨[], out1.final.uploaded_photos, out1.final.tracker_file, 0⟩ : LoopState)).upload_results
      = _
    rw [runLoop_upload_results]
    rfl
  have htr1 : out1.final.uploaded_photos = (runLoop true env1.albumResp.id env1.assetEnv 0
      photos (⟨[], t0, f0, 0⟩ : LoopState)).uploaded_photos := by
    rw [hout1]
  refine second_run_skips env1.albumResp.id env2.albumResp.id env1.assetEnv env2.assetEnv
    photos 0 0 (⟨[], t0, f0, 0⟩ : LoopState)
    (⟨[], out1.final.uploaded_photos, out1.final.tracker_file, 0⟩ : LoopState)
    ?_ j p r1 r2 hp ?_ ?_ hmd5 hok
  · show TrackerLe (runLoop true env1.albumResp.id env1.assetEnv 0 photos
      (⟨[], t0, f0, 0⟩ : LoopState)).uploaded_photos out1.final.uploaded_photos
    rw [htr1]
    exact trackerLe_refl _
  · rw [← hres1]
    exact hr1
  · rw [← hres2]
    exact hr2

/-- C7 as frozen is false at a concrete input: with duplicate-skipping
enabled, an asset (non-empty checksum `"abc"`) whose download raises in the
first run leaves no tracker entry, so the second run — started from the
first run's exact tracker state — re-attempts it; with a working network it
gets status SUCCESS, not SKIPPED_DUPLICATE, a new SUCCESS on run two. -/
theorem c7_counterexample :
    photoA.md5Checksum.getD "" ≠ "" ∧
    runStatuses c7Run1 = ["ERROR"] ∧
    runStatuses c7Run2 = ["SUCCESS"] := by
  decide

/-- Witness for the amended C7 at a concrete input: the asset succeeds in
run one and is SKIPPED_DUPLICATE in run two. -/
theorem c7_witness :
    upload_all true none (runEnvWith (happyEnv "P1" "T1")) [photoA] [] []
      = .ok (getOk c7wRun1) ∧
    upload_all true none (runEnvWith (happyEnv "P9" "T9")) [photoA]
      (getOk c7wRun1).final.uploaded_photos (getOk c7wRun1).final.tracker_file
      = .ok (getOk c7wRun2) ∧
    (resultAt c7wRun1 0).status = "SUCCESS" ∧
    (resultAt c7wRun2 0).status = "SKIPPED_DUPLICATE" :=
  ⟨by decide, by decide, by decide,
   c7_second_run_idempotent none none (runEnvWith (happyEnv "P1" "T1"))
     (runEnvWith (happyEnv "P9" "T9")) [photoA] [] [] (getOk c7wRun1) (getOk c7wRun2)
     (by decide) (by decide) 0 photoA (resultAt c7wRun1 0) (resultAt c7wRun2 0)
     (by decide) (by decide) (by decide) (by decide) (Or.inl (by decide))⟩

end GDTP
